import Mathlib

/-!
Shallow embedding of the Ticket9ja backend (src/main.py, src/models.py,
src/ticket_utils.py): events, tickets, the scan/validate state machine,
ticket creation with the event lock, and file side effects of the
QR/image rendering pipeline.

The database session is modelled as an explicit `DB` value; each route
handler becomes a function `... → DB → Except ApiError α × DB`, where an
`Except.error` result models an HTTPException (or an unhandled Python
exception, `ApiError.pythonError`) raised by the handler, and the
returned `DB` is the committed state at that point (commits that happened
before an exception are preserved). Wall-clock instants
(`datetime.utcnow()`) are passed in as `Nat` parameters; the random part
of identifier generation is passed in as a string supply `idGen`.
-/

namespace Ticket9ja

/-- The `events` table row (models.py, class Event). `description` and
`ticket_design_path` are nullable in the schema; only the latter's
nullability matters to the routes, `description` defaults to `""`. -/
structure Event where
  id : Nat
  name : String
  event_date : String
  event_time : String
  venue : String
  city : String
  description : String
  ticket_design_path : Option String
  is_active : Bool
  is_locked : Bool
  deriving Repr, DecidableEq

/-- The `tickets` table row (models.py, class Ticket). `used_at` is null
until redemption; timestamps are `Nat` instants. -/
structure Ticket where
  id : Nat
  ticket_id : String
  event_id : Nat
  attendee_name : String
  attendee_email : String
  ticket_type : String
  qr_code_path : String
  ticket_image_path : String
  is_used : Bool
  used_at : Option Nat
  updated_at : Nat
  deriving Repr, DecidableEq

/-- Database plus file-system state: the two tables, the set of files the
rendering pipeline has written (as a list of paths), and the ticket
autoincrement counter. -/
structure DB where
  events : List Event
  tickets : List Ticket
  files : List String
  nextTicketRow : Nat
  deriving Repr, DecidableEq

/-- Errors a request can surface: HTTP 404, the locked-event HTTP 400,
the 422 a pydantic body validation failure produces before the handler
runs, a unique-constraint violation on `tickets.ticket_id` raised by
the store, and an unhandled Python exception (e.g. attribute access on
None). -/
inductive ApiError where
  | notFound
  | eventLocked
  | validationFailed
  | integrityError
  | pythonError
  deriving Repr, DecidableEq

/-- `db.query(Event).filter(Event.id == eid).first()` -/
def findEvent (db : DB) (eid : Nat) : Option Event :=
  db.events.find? (fun e => e.id == eid)

/-- `db.query(Ticket).filter(Ticket.ticket_id == tid).first()` (lookup by
the external identifier, as in the scan route). -/
def findTicketByTid (db : DB) (tid : String) : Option Ticket :=
  db.tickets.find? (fun t => t.ticket_id == tid)

/-- `db.query(Ticket).filter(Ticket.id == i).first()` (lookup by the
internal row id, as in the ticket CRUD routes). -/
def findTicketByRow (db : DB) (i : Nat) : Option Ticket :=
  db.tickets.find? (fun t => t.id == i)

/-- Commit a mutation of the event row with id `eid`. -/
def updateEventRow (db : DB) (eid : Nat) (f : Event → Event) : DB :=
  { db with events := db.events.map (fun e => if e.id == eid then f e else e) }

/-- Commit a mutation of the ticket row with external identifier `tid`
(`ticket_id` carries a unique index, so at most one row matches). -/
def updateTicketRowByTid (db : DB) (tid : String) (f : Ticket → Ticket) : DB :=
  { db with tickets := db.tickets.map (fun t => if t.ticket_id == tid then f t else t) }

/-- Commit a mutation of the ticket row with internal id `i`. -/
def updateTicketRowById (db : DB) (i : Nat) (f : Ticket → Ticket) : DB :=
  { db with tickets := db.tickets.map (fun t => if t.id == i then f t else t) }

/-- Write a file at `path` (idempotent: rendering overwrites in place). -/
def addFile (path : String) (db : DB) : DB :=
  if path ∈ db.files then db else { db with files := db.files ++ [path] }

/-- ticket_utils.generate_qr_code saves the QR bitmap at
`QR_DIR/qr_<ticket_id>.png`. -/
def qrPath (tid : String) : String :=
  "tickets/qr_codes/qr_" ++ tid ++ ".png"

/-- ticket_utils.render_ticket_image saves the rendered image at
`TICKETS_DIR/ticket_<ticket_id>.jpg`. -/
def ticketImagePath (tid : String) : String :=
  "tickets/ticket_" ++ tid ++ ".jpg"

/-- ticket_utils.generate_ticket_id:
`f"TKT-\x7btimestamp\x7d-\x7bunique_id\x7d"` where `timestamp` is the
second-resolution UTC time string and `unique_id` the first 8 hex chars
of a uuid4, uppercased. The two variable components are parameters. -/
def generate_ticket_id (timestamp : String) (unique_id : String) : String :=
  "TKT-" ++ timestamp ++ "-" ++ unique_id

/-- Request body of PUT /api/events/{event_id} (class EventCreate). -/
structure EventCreate where
  name : String
  event_date : String
  event_time : String
  venue : String
  city : String
  description : String
  deriving Repr, DecidableEq

/-- Request body of POST /api/events/{event_id}/tickets
(class TicketCreate). `quantity : int = 1` has no lower-bound check, so
any integer is accepted. -/
structure TicketCreate where
  attendee_name : String
  attendee_email : String
  ticket_type : String
  quantity : Int
  deriving Repr, DecidableEq

/-- Request body of PUT /api/tickets/{ticket_id} (class TicketUpdate);
every field is optional. The handler receives this record only after
FastAPI/pydantic parsing: `attendee_name` and `ticket_type` are plain
`Optional[str]`, but `attendee_email` is `Optional[EmailStr]`
(main.py line 72), so a present email must pass format validation —
`parseTicketUpdate` below models that request boundary. -/
structure TicketUpdate where
  attendee_name : Option String
  attendee_email : Option String
  ticket_type : Option String
  deriving Repr, DecidableEq

/-- Python truthiness of an optional string: `None` and `""` are falsy.
update_ticket guards each field with `if ticket_data.<field>:`. -/
def truthy : Option String → Bool
  | none => false
  | some s => !s.isEmpty

/-- The slice of pydantic's `EmailStr` validation (the type of
`TicketUpdate.attendee_email`, main.py line 72) that the routes depend
on: a supplied address must contain exactly one `@` separating a
non-empty local part from a non-empty domain. In particular the empty
string is malformed and rejected. (The real validator is stricter
still — e.g. it also constrains the domain — but every string it
accepts has this shape.) -/
def emailStrAccepts (s : String) : Bool :=
  let cs := s.toList
  (cs.count '@' == 1) && !(cs.head? == some '@') && !(cs.getLast? == some '@')

/-- Validation of the optional `attendee_email` body field: an absent
field is not validated, a present one must be a well-formed address. -/
def emailFieldValid : Option String → Bool
  | none => true
  | some s => emailStrAccepts s

/-- FastAPI/pydantic parsing of the PUT /api/tickets/{ticket_id} body:
a request whose supplied `attendee_email` fails `EmailStr` validation
is rejected with a 422 before the handler runs; `attendee_name` and
`ticket_type` are plain `Optional[str]` and undergo no format check. -/
def parseTicketUpdate (name email ttype : Option String) :
    Except ApiError TicketUpdate :=
  if emailFieldValid email then .ok ⟨name, email, ttype⟩
  else .error .validationFailed

/-- PUT /api/events/{event_id} (main.py update_event): 404 if the event
is missing, 400 (`eventLocked`) if `is_locked`, otherwise overwrite the
six structural fields and commit. -/
def update_event (eid : Nat) (data : EventCreate) (db : DB) :
    Except ApiError Event × DB :=
  match findEvent db eid with
  | none => (.error .notFound, db)
  | some e =>
    if e.is_locked then (.error .eventLocked, db)
    else
      let e' : Event :=
        { e with name := data.name, event_date := data.event_date,
                 event_time := data.event_time, venue := data.venue,
                 city := data.city, description := data.description }
      (.ok e', updateEventRow db eid (fun _ => e'))

/-- POST /api/events/{event_id}/toggle-active (main.py
toggle_event_active): flips `is_active` with no lock check; returns the
new flag. -/
def toggle_event_active (eid : Nat) (db : DB) : Except ApiError Bool × DB :=
  match findEvent db eid with
  | none => (.error .notFound, db)
  | some e =>
    let e' : Event := { e with is_active := !e.is_active }
    (.ok e'.is_active, updateEventRow db eid (fun _ => e'))

/-- DELETE /api/events/{event_id} (main.py delete_event): deletes the
ticket rows of the event and the event row. It touches no files: unlike
delete_ticket, it never calls os.remove on qr_code_path or
ticket_image_path. -/
def delete_event (eid : Nat) (db : DB) : Except ApiError Unit × DB :=
  match findEvent db eid with
  | none => (.error .notFound, db)
  | some _ =>
    (.ok (),
     { db with
        tickets := db.tickets.filter (fun t => !(t.event_id == eid)),
        events := db.events.filter (fun e => !(e.id == eid)) })

/-- GET /api/events/{event_id}/tickets (main.py get_event_tickets):
all tickets of one event. -/
def get_event_tickets (eid : Nat) (db : DB) : List Ticket :=
  db.tickets.filter (fun t => t.event_id == eid)

/-- The three `if ticket_data.<field>:` statements of main.py
update_ticket (lines 322-327): a field is written only when it is both
supplied and truthy (`None` and `""` are falsy). -/
def applyTicketUpdate (t : Ticket) (data : TicketUpdate) : Ticket :=
  let t1 := match data.attendee_name with
    | some s => if !s.isEmpty then { t with attendee_name := s } else t
    | none => t
  let t2 := match data.attendee_email with
    | some s => if !s.isEmpty then { t1 with attendee_email := s } else t1
    | none => t1
  match data.ticket_type with
  | some s => if !s.isEmpty then { t2 with ticket_type := s } else t2
  | none => t2

/-- PUT /api/tickets/{ticket_id} (main.py update_ticket): 404 if the row
id does not resolve; each supplied-and-truthy field overwrites the
stored value; `updated_at` is set to now; the ticket image is re-rendered
from the (possibly updated) fields to the path keyed by the unchanged
`ticket_id`, and `ticket_image_path` is set to that path; `ticket_id`,
`qr_code_path`, `is_used` and `used_at` are never touched. The event
lookup feeding the renderer raises an unhandled exception if the
ticket's event is missing (attribute access on None), before any
commit. -/

def update_ticket (i : Nat) (data : TicketUpdate) (now : Nat) (db : DB) :
    Except ApiError Ticket × DB :=
  match findTicketByRow db i with
  | none => (.error .notFound, db)
  | some t =>
    let t3 := applyTicketUpdate t data
    match findEvent db t.event_id with
    | none => (.error .pythonError, db)
    | some _ =>
      let t4 := { t3 with updated_at := now,
                          ticket_image_path := ticketImagePath t.ticket_id }
      let db1 := addFile (ticketImagePath t.ticket_id) db
      (.ok t4, updateTicketRowById db1 i (fun _ => t4))

/-- The full PUT /api/tickets/{ticket_id} endpoint: request-body
parsing and validation at the boundary, then the update_ticket
handler. A validation failure leaves the store untouched. -/
def update_ticket_route (i : Nat) (name email ttype : Option String)
    (now : Nat) (db : DB) : Except ApiError Ticket × DB :=
  match parseTicketUpdate name email ttype with
  | .error e => (.error e, db)
  | .ok data => update_ticket i data now db

/-- The JSON responses of POST /api/scan/validate: `invalid` (unknown
identifier), `alreadyUsed` with the attendee name, ticket type and the
stored redemption instant, or `valid` with the attendee name, ticket
type, identifier and event name. -/
inductive ScanResult where
  | invalid
  | alreadyUsed (attendee_name ticket_type : String) (used_at : Nat)
  | valid (attendee_name ticket_type ticket_id event_name : String)
  deriving Repr, DecidableEq

/-- The snapshot read of POST /api/scan/validate (main.py
validate_ticket, line 401): the ticket row as seen by this request. -/
def scanRead (tid : String) (db : DB) : Option Ticket :=
  findTicketByTid db tid

/-- The remainder of main.py validate_ticket after the snapshot read:
branch on the snapshot, and in the fresh case write `is_used := true`,
`used_at := now` back unconditionally (read-then-write, no
compare-and-set). An already-used ticket whose `used_at` is null would
crash at `strftime` (modelled as `pythonError`); a redeemed ticket
whose event row is missing crashes after the commit. -/
def scanFinish (now : Nat) (snapshot : Option Ticket) (db : DB) :
    Except ApiError ScanResult × DB :=
  match snapshot with
  | none => (.ok .invalid, db)
  | some t =>
    if t.is_used then
      match t.used_at with
      | none => (.error .pythonError, db)
      | some ts => (.ok (.alreadyUsed t.attendee_name t.ticket_type ts), db)
    else
      let t' := { t with is_used := true, used_at := some now, updated_at := now }
      let db' := updateTicketRowByTid db t.ticket_id (fun _ => t')
      match findEvent db' t.event_id with
      | none => (.error .pythonError, db')
      | some ev =>
        (.ok (.valid t'.attendee_name t'.ticket_type t'.ticket_id ev.name), db')

/-- POST /api/scan/validate (main.py validate_ticket), one sequential
request: read the snapshot, then finish. -/
def validate_ticket (now : Nat) (tid : String) (db : DB) :
    Except ApiError ScanResult × DB :=
  scanFinish now (scanRead tid db) db

/-- Two concurrent validate requests for the same identifier under the
interleaving in which both requests execute their snapshot read before
either commits its write: each request then finishes from its own
snapshot. Returns both responses and the final state. -/
def validate_pair_interleaved (now1 now2 : Nat) (tid : String) (db : DB) :
    Except ApiError ScanResult × Except ApiError ScanResult × DB :=
  let s1 := scanRead tid db
  let s2 := scanRead tid db
  let r1 := scanFinish now1 s1 db
  let r2 := scanFinish now2 s2 r1.2
  (r1.1, r2.1, r2.2)

/-- One unit of the creation loop body of main.py create_tickets:
generate the QR file, render the ticket image file, build the row and
insert it. The store's unique index on `ticket_id` rejects a duplicate
identifier at commit (`integrityError`, the defensive backstop). -/
def createOneTicket (event : Event) (data : TicketCreate) (tid : String)
    (now : Nat) (db : DB) : Except ApiError Ticket × DB :=
  let db1 := addFile (qrPath tid) db
  let db2 := addFile (ticketImagePath tid) db1
  if db2.tickets.any (fun u => u.ticket_id == tid) then
    (.error .integrityError, db2)
  else
    let t : Ticket :=
      { id := db2.nextTicketRow, ticket_id := tid, event_id := event.id,
        attendee_name := data.attendee_name,
        attendee_email := data.attendee_email,
        ticket_type := data.ticket_type,
        qr_code_path := qrPath tid,
        ticket_image_path := ticketImagePath tid,
        is_used := false, used_at := none, updated_at := now }
    (.ok t,
     { db2 with tickets := db2.tickets ++ [t],
                nextTicketRow := db2.nextTicketRow + 1 })

/-- The `for i in range(quantity)` loop of main.py create_tickets:
`count` units remain, the next generated identifier is `idGen i`. An
insertion failure aborts the request there (the exception propagates),
keeping the state committed so far. -/
def createTicketsLoop (event : Event) (data : TicketCreate)
    (idGen : Nat → String) (now : Nat) :
    Nat → Nat → DB → Except ApiError (List Ticket) × DB
  | 0, _, db => (.ok [], db)
  | count + 1, i, db =>
    match createOneTicket event data (idGen i) now db with
    | (.error e, db') => (.error e, db')
    | (.ok t, db') =>
      match createTicketsLoop event data idGen now count (i + 1) db' with
      | (.error e, db'') => (.error e, db'')
      | (.ok ts, db'') => (.ok (t :: ts), db'')

/-- The lock step of main.py create_tickets (lines 243-245): if the
event is not yet locked, set `is_locked` and commit, once, before any
ticket is persisted; a no-op if already locked. -/
def lockEventIfUnlocked (eid : Nat) (db : DB) : DB :=
  match findEvent db eid with
  | none => db
  | some e =>
    if e.is_locked then db
    else updateEventRow db eid (fun ev => { ev with is_locked := true })

/-- POST /api/events/{event_id}/tickets (main.py create_tickets): 404 if
the event is missing; lock the event (once, before the loop); then run
the creation loop `quantity.toNat` times — `range(quantity)` is empty
for any `quantity < 1`, so such a request is not rejected. `idGen i` is
the identifier produced by the i-th `generate_ticket_id()` call. -/
def create_tickets (eid : Nat) (data : TicketCreate) (idGen : Nat → String)
    (now : Nat) (db : DB) : Except ApiError (List Ticket) × DB :=
  match findEvent db eid with
  | none => (.error .notFound, db)
  | some event =>
    let db1 := lockEventIfUnlocked eid db
    createTicketsLoop { event with is_locked := true } data idGen now
      data.quantity.toNat 0 db1

/-! ### Sample data for concrete evaluations -/

/-- A sample unlocked, active event. -/
def sampleEvent : Event :=
  { id := 1
    name := "Lagos Tech Fest"
    event_date := "2026-01-10"
    event_time := "10:00"
    venue := "Eko Hotel"
    city := "Lagos"
    description := ""
    ticket_design_path := none
    is_active := true
    is_locked := false }

/-- A sample freshly issued (never scanned) ticket of `sampleEvent`. -/
def sampleTicket : Ticket :=
  { id := 1
    ticket_id := "TKT-20260110-AB12CD34"
    event_id := 1
    attendee_name := "Ada"
    attendee_email := "ada@example.com"
    ticket_type := "VIP"
    qr_code_path := qrPath "TKT-20260110-AB12CD34"
    ticket_image_path := ticketImagePath "TKT-20260110-AB12CD34"
    is_used := false
    used_at := none
    updated_at := 0 }

/-- A sample store: one unlocked event holding one fresh ticket whose QR
and rendered-image files exist. -/
def sampleDB : DB :=
  { events := [sampleEvent]
    tickets := [sampleTicket]
    files := [qrPath sampleTicket.ticket_id, ticketImagePath sampleTicket.ticket_id]
    nextTicketRow := 2 }

/-- A sample store whose only ticket is already redeemed at instant 5. -/
def sampleUsedDB : DB :=
  { sampleDB with
      tickets := [{ sampleTicket with is_used := true, used_at := some 5 }] }

/-- A sample store with one locked event and no tickets. -/
def sampleLockedDB : DB :=
  { events := [{ sampleEvent with is_locked := true }]
    tickets := []
    files := []
    nextTicketRow := 1 }

/-! ### Helper lemmas -/

/-- Updating, via the row-update pattern, every element satisfying `p`
with an update that preserves `p` leaves `find? p` pointing at the
updated first match. -/
theorem find?_map_if {α : Type} (p : α → Bool) (f : α → α)
    (hp : ∀ x, p x = true → p (f x) = true) :
    ∀ (l : List α) (a : α), l.find? p = some a →
      (l.map (fun x => if p x then f x else x)).find? p = some (f a) := by
  intro l
  induction l with
  | nil => intro a h; simp at h
  | cons x xs ih =>
    intro a h
    by_cases hx : p x = true
    · rw [List.find?_cons_of_pos xs hx] at h
      injection h with h; subst h
      simp only [List.map_cons, if_pos hx]
      exact List.find?_cons_of_pos _ (hp x hx)
    · rw [List.find?_cons_of_neg xs hx] at h
      simp only [List.map_cons, if_neg hx]
      rw [List.find?_cons_of_neg _ hx]
      exact ih a h

/-- `find?` misses a list from which every `p`-match has been filtered
out. -/
theorem find?_filter_not {α : Type} (p : α → Bool) (l : List α) :
    (l.filter (fun x => !p x)).find? p = none := by
  rw [List.find?_eq_none]
  intro x hx
  rcases List.mem_filter.mp hx with ⟨-, hnp⟩
  simp only [Bool.not_eq_true'] at hnp
  simp [hnp]

/-- Filtering for `p` after deleting every `p`-match yields nothing. -/
theorem filter_of_filter_not {α : Type} (p : α → Bool) (l : List α) :
    (l.filter (fun x => !p x)).filter p = [] := by
  rw [List.filter_filter]
  have : (fun a => p a && !p a) = fun _ => false := by
    funext a; cases p a <;> rfl
  rw [this]
  exact List.filter_false l

/-- An event that is already locked is fixed by the lock write. -/
theorem event_lock_id (ev : Event) (h : ev.is_locked = true) :
    { ev with is_locked := true } = ev := by
  cases ev; simp_all

/-- The lock step never touches the tickets, the files, or the counter. -/
theorem lockEventIfUnlocked_frame (eid : Nat) (db : DB) :
    (lockEventIfUnlocked eid db).tickets = db.tickets ∧
    (lockEventIfUnlocked eid db).files = db.files ∧
    (lockEventIfUnlocked eid db).nextTicketRow = db.nextTicketRow := by
  unfold lockEventIfUnlocked
  cases findEvent db eid with
  | none => exact ⟨rfl, rfl, rfl⟩
  | some e =>
    by_cases h : e.is_locked = true
    · simp [h]
    · simp [h, updateEventRow]

/-- Writing ticket rows leaves event lookups unchanged. -/
theorem findEvent_updateTicketRowByTid (db : DB) (tid : String)
    (f : Ticket → Ticket) (eid : Nat) :
    findEvent (updateTicketRowByTid db tid f) eid = findEvent db eid := rfl

/-! ### Claims about Validate -/

/-- Claim C1: for every ticket found by its external identifier with
`used = false` (and whose owning event exists, as every issued ticket's
does), Validate sets `used = true` and `used_at` to the current instant,
persists that row, and returns `Valid` carrying the attendee name,
ticket type and event name; events and files are untouched. -/
theorem claim1_validate_fresh_redeems (now : Nat) (tid : String) (db : DB)
    (t : Ticket) (ev : Event)
    (ht : findTicketByTid db tid = some t) (hu : t.is_used = false)
    (hev : findEvent db t.event_id = some ev) :
    (validate_ticket now tid db).1 =
      .ok (.valid t.attendee_name t.ticket_type t.ticket_id ev.name) ∧
    findTicketByTid (validate_ticket now tid db).2 tid =
      some { t with is_used := true, used_at := some now, updated_at := now } ∧
    (validate_ticket now tid db).2.events = db.events ∧
    (validate_ticket now tid db).2.files = db.files := by
  have ht' : db.tickets.find? (fun u => u.ticket_id == tid) = some t := ht
  have hpt := List.find?_some ht'
  have htid : t.ticket_id = tid := by simpa using hpt
  have hmain : validate_ticket now tid db =
      (.ok (.valid t.attendee_name t.ticket_type t.ticket_id ev.name),
       updateTicketRowByTid db t.ticket_id
         (fun _ => { t with is_used := true, used_at := some now,
                            updated_at := now })) := by
    simp only [validate_ticket, scanRead, scanFinish, ht, hu,
      Bool.false_eq_true, if_false, findEvent_updateTicketRowByTid, hev]
  refine ⟨by rw [hmain], ?_, by rw [hmain]; rfl, by rw [hmain]; rfl⟩
  rw [hmain]
  show (db.tickets.map _).find? _ = _
  rw [htid]
  exact find?_map_if (fun u => u.ticket_id == tid)
    (fun _ => { t with ticket_id := tid, is_used := true, used_at := some now,
                       updated_at := now })
    (fun x _ => by simp) db.tickets t ht'

/-- Witness for C1 on the sample store. -/
theorem claim1_witness :
    (validate_ticket 5 "TKT-20260110-AB12CD34" sampleDB).1 =
      .ok (.valid "Ada" "VIP" "TKT-20260110-AB12CD34" "Lagos Tech Fest") ∧
    findTicketByTid (validate_ticket 5 "TKT-20260110-AB12CD34" sampleDB).2
        "TKT-20260110-AB12CD34" =
      some { sampleTicket with is_used := true, used_at := some 5,
                               updated_at := 5 } := by
  have h := claim1_validate_fresh_redeems 5 "TKT-20260110-AB12CD34" sampleDB
    sampleTicket sampleEvent rfl rfl rfl
  exact ⟨h.1, h.2.1⟩

/-- Claim C2: for every ticket whose `used` flag is already true (so the
redemption instant is stored), Validate returns `AlreadyUsed` carrying
the attendee name, ticket type and the original redemption instant, and
leaves the store unchanged; hence a third call after redemption returns
the same response — with the same timestamp — as the second, and
repeated scans never change the store. -/
theorem claim2_already_used_idempotent (now : Nat) (tid : String) (db : DB)
    (t : Ticket) (ts : Nat)
    (ht : findTicketByTid db tid = some t) (hu : t.is_used = true)
    (ha : t.used_at = some ts) :
    validate_ticket now tid db =
      (.ok (.alreadyUsed t.attendee_name t.ticket_type ts), db) ∧
    ∀ now2 now3,
      validate_ticket now3 tid (validate_ticket now2 tid db).2 =
        validate_ticket now2 tid db := by
  have key : ∀ n : Nat, validate_ticket n tid db =
      (.ok (.alreadyUsed t.attendee_name t.ticket_type ts), db) := by
    intro n
    simp only [validate_ticket, scanRead, scanFinish, ht, hu, ha, if_true]
  exact ⟨key now, fun now2 now3 => by rw [key now2, key now3]⟩

/-- Witness for C2 on the sample store with a redeemed ticket. -/
theorem claim2_witness :
    validate_ticket 9 "TKT-20260110-AB12CD34" sampleUsedDB =
      (.ok (.alreadyUsed "Ada" "VIP" 5), sampleUsedDB) ∧
    validate_ticket 11 "TKT-20260110-AB12CD34"
        (validate_ticket 10 "TKT-20260110-AB12CD34" sampleUsedDB).2 =
      validate_ticket 10 "TKT-20260110-AB12CD34" sampleUsedDB := by
  have h := claim2_already_used_idempotent 9 "TKT-20260110-AB12CD34"
    sampleUsedDB { sampleTicket with is_used := true, used_at := some 5 } 5
    rfl rfl rfl
  exact ⟨h.1, h.2 10 11⟩

/-- Claim C3: for every identifier that resolves to no stored ticket,
Validate returns `Invalid` and the store is returned unchanged — no row
is created, nothing is mutated. -/
theorem claim3_unknown_invalid (now : Nat) (tid : String) (db : DB)
    (h : findTicketByTid db tid = none) :
    validate_ticket now tid db = (.ok .invalid, db) := by
  simp only [validate_ticket, scanRead, scanFinish, h]

/-- Witness for C3: scanning an unknown identifier on the sample store. -/
theorem claim3_witness :
    validate_ticket 3 "UNKNOWN-ID" sampleDB = (.ok .invalid, sampleDB) :=
  claim3_unknown_invalid 3 "UNKNOWN-ID" sampleDB rfl

/-! ### Claims about event editing -/

/-- Claim C5: for every locked event and every request body, UpdateEvent
fails with the locked-event error and returns the store unchanged (every
field keeps its value), while toggling the active flag is not subject to
the lock check: it succeeds and flips exactly `is_active`. -/
theorem claim5_locked_update_rejected_toggle_exempt (eid : Nat)
    (data : EventCreate) (db : DB) (ev : Event)
    (he : findEvent db eid = some ev) (hl : ev.is_locked = true) :
    update_event eid data db = (.error .eventLocked, db) ∧
    (toggle_event_active eid db).1 = .ok (!ev.is_active) ∧
    findEvent (toggle_event_active eid db).2 eid =
      some { ev with is_active := !ev.is_active } := by
  have he' : db.events.find? (fun e => e.id == eid) = some ev := he
  have hid' := List.find?_some he'
  have hid : (ev.id == eid) = true := by simpa using hid'
  refine ⟨?_, ?_, ?_⟩
  · simp only [update_event, he, hl, if_true]
  · simp only [toggle_event_active, he]
  · simp only [toggle_event_active, he]
    show (db.events.map _).find? _ = _
    exact find?_map_if (fun e => e.id == eid)
      (fun _ => { ev with is_active := !ev.is_active })
      (fun x _ => hid) db.events ev he'

/-- Witness for C5 on the sample locked event. -/
theorem claim5_witness :
    update_event 1
        { name := "New", event_date := "d", event_time := "t",
          venue := "v", city := "c", description := "x" }
        sampleLockedDB =
      (.error .eventLocked, sampleLockedDB) ∧
    (toggle_event_active 1 sampleLockedDB).1 = .ok false := by
  have h := claim5_locked_update_rejected_toggle_exempt 1
    { name := "New", event_date := "d", event_time := "t",
      venue := "v", city := "c", description := "x" }
    sampleLockedDB { sampleEvent with is_locked := true } rfl rfl
  exact ⟨h.1, h.2.1⟩

end Ticket9ja

namespace Ticket9ja

/-! ### Claim C4: the redemption race -/

/-- Claim C4 fails on the code: the redemption write is a plain
read-then-write, not a compare-and-set, so under the interleaving in
which both concurrent scans of the sample fresh ticket read before
either writes, BOTH calls return `Valid` (the claim requires exactly one
`Valid` and one `AlreadyUsed`); afterwards `used_at` holds the second
writer's instant. -/
theorem claim4_race_both_valid :
    (validate_pair_interleaved 5 7 "TKT-20260110-AB12CD34" sampleDB).1 =
      .ok (.valid "Ada" "VIP" "TKT-20260110-AB12CD34" "Lagos Tech Fest") ∧
    (validate_pair_interleaved 5 7 "TKT-20260110-AB12CD34" sampleDB).2.1 =
      .ok (.valid "Ada" "VIP" "TKT-20260110-AB12CD34" "Lagos Tech Fest") ∧
    (findTicketByTid
        (validate_pair_interleaved 5 7 "TKT-20260110-AB12CD34" sampleDB).2.2
        "TKT-20260110-AB12CD34").map Ticket.used_at = some (some 7) :=
  ⟨rfl, rfl, rfl⟩

/-! ### Claims about batch creation -/

/-- After the lock step, the event reads back locked (and is otherwise
unchanged). -/
theorem findEvent_lockEventIfUnlocked (eid : Nat) (db : DB) (ev : Event)
    (he : findEvent db eid = some ev) :
    findEvent (lockEventIfUnlocked eid db) eid =
      some { ev with is_locked := true } := by
  have he' : db.events.find? (fun e => e.id == eid) = some ev := he
  have hid' := List.find?_some he'
  have hid : (ev.id == eid) = true := by simpa using hid'
  unfold lockEventIfUnlocked
  rw [he]
  dsimp only
  by_cases hl : ev.is_locked = true
  · rw [if_pos hl, event_lock_id ev hl]
    exact he
  · rw [if_neg hl]
    show (db.events.map _).find? _ = _
    exact find?_map_if (fun e => e.id == eid)
      (fun x => { x with is_locked := true })
      (fun x h => h) db.events ev he'

/-- Claim C7 fails on the code: there is no `quantity ≥ 1` validation.
`create_tickets` with `quantity = 0` on the sample store (whose event is
unlocked) is not rejected — it returns success with an empty list — and
a side effect does occur: the event's `locked` flag flips from false to
true. -/
theorem claim7_counterexample :
    (create_tickets 1
        { attendee_name := "B", attendee_email := "b@x.com",
          ticket_type := "Regular", quantity := 0 }
        (fun _ => "TKT-FRESH") 3 sampleDB).1 = .ok [] ∧
    (findEvent sampleDB 1).map Event.is_locked = some false ∧
    (findEvent (create_tickets 1
        { attendee_name := "B", attendee_email := "b@x.com",
          ticket_type := "Regular", quantity := 0 }
        (fun _ => "TKT-FRESH") 3 sampleDB).2 1).map Event.is_locked =
      some true ∧
    (create_tickets 1
        { attendee_name := "B", attendee_email := "b@x.com",
          ticket_type := "Regular", quantity := 0 }
        (fun _ => "TKT-FRESH") 3 sampleDB).2.tickets = sampleDB.tickets :=
  ⟨rfl, rfl, rfl, rfl⟩

/-- Claim C7 as amended: a CreateBatch request with `quantity < 1`
against an existing event is NOT rejected — no validation error is
raised; the creation loop simply runs zero times, so the call returns
success with an empty ticket list and creates no ticket, but the
lock side effect still occurs: the event ends up locked. -/
theorem claim7_amended_no_reject_but_lock (eid : Nat) (data : TicketCreate)
    (idGen : Nat → String) (now : Nat) (db : DB) (ev : Event)
    (he : findEvent db eid = some ev) (hq : data.quantity < 1) :
    create_tickets eid data idGen now db = (.ok [], lockEventIfUnlocked eid db) ∧
    (lockEventIfUnlocked eid db).tickets = db.tickets ∧
    findEvent (lockEventIfUnlocked eid db) eid =
      some { ev with is_locked := true } := by
  have hq0 : data.quantity.toNat = 0 := Int.toNat_of_nonpos (by omega)
  refine ⟨?_, (lockEventIfUnlocked_frame eid db).1,
    findEvent_lockEventIfUnlocked eid db ev he⟩
  unfold create_tickets
  rw [he, hq0]
  rfl

/-- Witness for the amended C7 at quantity `-2` on the sample store. -/
theorem claim7_amended_witness :
    create_tickets 1
        { attendee_name := "B", attendee_email := "b@x.com",
          ticket_type := "Regular", quantity := -2 }
        (fun _ => "TKT-FRESH") 3 sampleDB =
      (.ok [], lockEventIfUnlocked 1 sampleDB) ∧
    findEvent (lockEventIfUnlocked 1 sampleDB) 1 =
      some { sampleEvent with is_locked := true } := by
  have h := claim7_amended_no_reject_but_lock 1
    { attendee_name := "B", attendee_email := "b@x.com",
      ticket_type := "Regular", quantity := -2 }
    (fun _ => "TKT-FRESH") 3 sampleDB sampleEvent rfl (by norm_num)
  exact ⟨h.1, h.2.2⟩

end Ticket9ja

namespace Ticket9ja

/-! ### Claim C9: event deletion -/

/-- Claim C9 fails on the code: delete_event removes the ticket rows
(listing the event's tickets afterwards is empty) but never removes the
tickets' generated QR and rendered-image files — on the sample store,
both files of the deleted event's ticket are still present afterwards,
while the claim says they are removed. -/
theorem claim9_counterexample :
    (delete_event 1 sampleDB).1 = .ok () ∧
    get_event_tickets 1 (delete_event 1 sampleDB).2 = [] ∧
    sampleTicket.qr_code_path ∈ sampleDB.files ∧
    sampleTicket.ticket_image_path ∈ sampleDB.files ∧
    sampleTicket.qr_code_path ∈ (delete_event 1 sampleDB).2.files ∧
    sampleTicket.ticket_image_path ∈ (delete_event 1 sampleDB).2.files := by
  refine ⟨rfl, rfl, ?_, ?_, ?_, ?_⟩ <;> decide

/-- Claim C9 as amended: deleting an existing event removes the event
row and all of its ticket rows — listing the event's tickets afterwards
returns the empty list — but the generated QR and rendered-image files
are NOT removed: the file store is unchanged. Tickets of other events
are kept. -/
theorem claim9_amended_rows_deleted_files_kept (eid : Nat) (db : DB)
    (ev : Event) (he : findEvent db eid = some ev) :
    ∃ db', delete_event eid db = (.ok (), db') ∧
      get_event_tickets eid db' = [] ∧
      findEvent db' eid = none ∧
      db'.files = db.files ∧
      ∀ t ∈ db.tickets, t.event_id ≠ eid → t ∈ db'.tickets := by
  refine ⟨{ db with
      tickets := db.tickets.filter (fun t => !(t.event_id == eid)),
      events := db.events.filter (fun e => !(e.id == eid)) },
    ?_, ?_, ?_, rfl, ?_⟩
  · unfold delete_event
    rw [he]
  · exact filter_of_filter_not (fun t => t.event_id == eid) db.tickets
  · exact find?_filter_not (fun e => e.id == eid) db.events
  · intro t htm hne
    exact List.mem_filter.mpr ⟨htm, by simp [hne]⟩

/-- Witness for the amended C9 on the sample store. -/
theorem claim9_amended_witness :
    ∃ db', delete_event 1 sampleDB = (.ok (), db') ∧
      get_event_tickets 1 db' = [] ∧
      findEvent db' 1 = none ∧
      db'.files = sampleDB.files ∧
      ∀ t ∈ sampleDB.tickets, t.event_id ≠ 1 → t ∈ db'.tickets :=
  claim9_amended_rows_deleted_files_kept 1 sampleDB sampleEvent rfl

end Ticket9ja

namespace Ticket9ja

/-! ### Claims about UpdateTicket -/

/-- Field-by-field characterization of the update chain: each of the
three optional fields is applied exactly when supplied and non-empty;
every other field is untouched. -/
theorem applyTicketUpdate_eq (t : Ticket) (data : TicketUpdate) :
    applyTicketUpdate t data =
      { t with
          attendee_name := match data.attendee_name with
            | some s => if !s.isEmpty then s else t.attendee_name
            | none => t.attendee_name,
          attendee_email := match data.attendee_email with
            | some s => if !s.isEmpty then s else t.attendee_email
            | none => t.attendee_email,
          ticket_type := match data.ticket_type with
            | some s => if !s.isEmpty then s else t.ticket_type
            | none => t.ticket_type } := by
  rcases data with ⟨na, ne, nt⟩
  unfold applyTicketUpdate
  cases na <;> cases ne <;> cases nt <;> dsimp only <;> split_ifs <;> rfl

/-- The written path is present after a file write. -/
theorem mem_addFile (p : String) (db : DB) : p ∈ (addFile p db).files := by
  unfold addFile
  by_cases h : p ∈ db.files
  · rw [if_pos h]; exact h
  · rw [if_neg h]; simp

/-- File writes touch neither table nor the counter. -/
theorem addFile_frame (p : String) (db : DB) :
    (addFile p db).tickets = db.tickets ∧ (addFile p db).events = db.events ∧
    (addFile p db).nextTicketRow = db.nextTicketRow := by
  unfold addFile
  split <;> exact ⟨rfl, rfl, rfl⟩

/-- The successful branch of update_ticket, as one equation. -/
theorem update_ticket_found_eq (i : Nat) (data : TicketUpdate) (now : Nat)
    (db : DB) (t : Ticket) (ev : Event)
    (ht : findTicketByRow db i = some t)
    (hev : findEvent db t.event_id = some ev) :
    update_ticket i data now db =
      (.ok { applyTicketUpdate t data with
              updated_at := now
              ticket_image_path := ticketImagePath t.ticket_id },
       updateTicketRowById (addFile (ticketImagePath t.ticket_id) db) i
         (fun _ => { applyTicketUpdate t data with
                      updated_at := now
                      ticket_image_path := ticketImagePath t.ticket_id })) := by
  simp only [update_ticket, ht, hev]

/-- Claim C8: update_ticket fails with the not-found error (store
unchanged) when the row id does not resolve; otherwise it changes only
the supplied (and non-empty) attendee-name/email/type fields, always
sets the modification timestamp to now and re-renders the ticket image
at the identifier-keyed path, and never changes the row id, the ticket
identifier, the QR path, or the used/used_at state; the updated row is
persisted and the events table is untouched. -/
theorem claim8_update_only_supplied_fields (i : Nat) (data : TicketUpdate)
    (now : Nat) (db : DB) :
    (findTicketByRow db i = none →
      update_ticket i data now db = (.error .notFound, db)) ∧
    (∀ t ev, findTicketByRow db i = some t →
      findEvent db t.event_id = some ev →
      ∃ t' db', update_ticket i data now db = (.ok t', db') ∧
        t'.id = t.id ∧ t'.ticket_id = t.ticket_id ∧
        t'.event_id = t.event_id ∧ t'.qr_code_path = t.qr_code_path ∧
        t'.is_used = t.is_used ∧ t'.used_at = t.used_at ∧
        t'.updated_at = now ∧
        t'.ticket_image_path = ticketImagePath t.ticket_id ∧
        ticketImagePath t.ticket_id ∈ db'.files ∧
        (data.attendee_name = none → t'.attendee_name = t.attendee_name) ∧
        (∀ s, data.attendee_name = some s → s ≠ "" → t'.attendee_name = s) ∧
        (data.attendee_email = none → t'.attendee_email = t.attendee_email) ∧
        (∀ s, data.attendee_email = some s → s ≠ "" → t'.attendee_email = s) ∧
        (data.ticket_type = none → t'.ticket_type = t.ticket_type) ∧
        (∀ s, data.ticket_type = some s → s ≠ "" → t'.ticket_type = s) ∧
        findTicketByRow db' i = some t' ∧
        db'.events = db.events) := by
  constructor
  · intro h
    simp only [update_ticket, h]
  · intro t ev ht hev
    have htp : db.tickets.find? (fun u => u.id == i) = some t := ht
    have hid' := List.find?_some htp
    have hid : (t.id == i) = true := by simpa using hid'
    refine ⟨_, _, update_ticket_found_eq i data now db t ev ht hev,
      ?_, ?_, ?_, ?_, ?_, ?_, rfl, rfl, ?_, ?_, ?_, ?_, ?_, ?_, ?_, ?_, ?_⟩
    · rw [applyTicketUpdate_eq]
    · rw [applyTicketUpdate_eq]
    · rw [applyTicketUpdate_eq]
    · rw [applyTicketUpdate_eq]
    · rw [applyTicketUpdate_eq]
    · rw [applyTicketUpdate_eq]
    · exact mem_addFile _ db
    · intro h; simp [applyTicketUpdate_eq, h]
    · intro s hsm hsn
      have : s.isEmpty = false := by
        rw [Bool.eq_false_iff]
        simpa [String.isEmpty_iff] using hsn
      simp [applyTicketUpdate_eq, hsm, this]
    · intro h; simp [applyTicketUpdate_eq, h]
    · intro s hsm hsn
      have : s.isEmpty = false := by
        rw [Bool.eq_false_iff]
        simpa [String.isEmpty_iff] using hsn
      simp [applyTicketUpdate_eq, hsm, this]
    · intro h; simp [applyTicketUpdate_eq, h]
    · intro s hsm hsn
      have : s.isEmpty = false := by
        rw [Bool.eq_false_iff]
        simpa [String.isEmpty_iff] using hsn
      simp [applyTicketUpdate_eq, hsm, this]
    · show ((addFile (ticketImagePath t.ticket_id) db).tickets.map _).find? _ = _
      rw [(addFile_frame _ _).1]
      refine find?_map_if (fun u => u.id == i) _ (fun x _ => ?_) db.tickets t htp
      dsimp only
      rw [applyTicketUpdate_eq]
      exact hid
    · exact (addFile_frame _ _).2.1

/-- Witness for C8 on the sample store: supplying only a new attendee
name changes that field, stamps the modification time, and leaves the
identifier and redemption state alone. -/
theorem claim8_witness :
    (update_ticket 1
        { attendee_name := some "Bola", attendee_email := none,
          ticket_type := none } 9 sampleDB).1.map Ticket.attendee_name =
      .ok "Bola" ∧
    (update_ticket 1
        { attendee_name := some "Bola", attendee_email := none,
          ticket_type := none } 9 sampleDB).1.map Ticket.ticket_id =
      .ok "TKT-20260110-AB12CD34" ∧
    (update_ticket 1
        { attendee_name := some "Bola", attendee_email := none,
          ticket_type := none } 9 sampleDB).1.map Ticket.used_at = .ok none ∧
    (update_ticket 1
        { attendee_name := some "Bola", attendee_email := none,
          ticket_type := none } 9 sampleDB).1.map Ticket.updated_at =
      .ok 9 := by
  obtain ⟨t', db', heq, -, htid, -, -, -, husedat, hupd, -, -, -, hname, -, -, -, -, -, -⟩ :=
    (claim8_update_only_supplied_fields 1
      { attendee_name := some "Bola", attendee_email := none,
        ticket_type := none } 9 sampleDB).2 sampleTicket sampleEvent rfl rfl
  rw [heq]
  dsimp only [Except.map]
  rw [hname "Bola" rfl (by decide), htid, husedat, hupd]
  exact ⟨rfl, rfl, rfl, rfl⟩

/-- Claim C10 fails on the code for the attendee-email field it names:
`attendee_email` is `Optional[EmailStr]` (main.py line 72), so a request
supplying the empty string for it is rejected with a 422 validation
error at the request boundary — the handler never runs, the field is not
"treated as not supplied": nothing is re-rendered and no modification
timestamp is stamped. On the sample store the request errors with the
store unchanged, the stored ticket keeping `updated_at = 0`. -/
theorem claim10_counterexample :
    update_ticket_route 1 none (some "") none 9 sampleDB =
      (.error .validationFailed, sampleDB) ∧
    (findTicketByRow sampleDB 1).map Ticket.updated_at = some 0 ∧
    emailStrAccepts "" = false :=
  ⟨rfl, rfl, rfl⟩

/-- Claim C10 as amended: for the two plain `Optional[str]` fields —
attendee name and ticket type — a supplied empty string is treated as
not supplied and left unchanged (presence is tested by Python
truthiness), while the image is still re-rendered and the modification
timestamp still updated; a supplied empty (or otherwise malformed)
attendee email never reaches the handler: `EmailStr` validation rejects
the request with a validation error before any side effect. -/
theorem claim10_amended_empty_ignored_email_rejected (i : Nat)
    (name email ttype : Option String) (now : Nat) (db : DB)
    (t : Ticket) (ev : Event)
    (ht : findTicketByRow db i = some t)
    (hev : findEvent db t.event_id = some ev) :
    update_ticket_route i name (some "") ttype now db =
      (.error .validationFailed, db) ∧
    (emailFieldValid email = true →
      ∃ t' db',
        update_ticket_route i name email ttype now db = (.ok t', db') ∧
        (name = some "" → t'.attendee_name = t.attendee_name) ∧
        (ttype = some "" → t'.ticket_type = t.ticket_type) ∧
        t'.updated_at = now ∧
        t'.ticket_image_path = ticketImagePath t.ticket_id ∧
        ticketImagePath t.ticket_id ∈ db'.files) := by
  constructor
  · have hf : emailFieldValid (some "") = false := rfl
    unfold update_ticket_route parseTicketUpdate
    rw [hf]
    rfl
  · intro hv
    have hroute : update_ticket_route i name email ttype now db =
        update_ticket i ⟨name, email, ttype⟩ now db := by
      unfold update_ticket_route parseTicketUpdate
      rw [hv]
      rfl
    rw [hroute]
    refine ⟨_, _,
      update_ticket_found_eq i ⟨name, email, ttype⟩ now db t ev ht hev,
      ?_, ?_, rfl, rfl, mem_addFile _ db⟩
    · intro h
      subst h
      simp [applyTicketUpdate_eq]
      intro h'
      exact absurd h' (by decide)
    · intro h
      subst h
      simp [applyTicketUpdate_eq]
      intro h'
      exact absurd h' (by decide)

/-- Witness for the amended C10 on the sample store: empty-string name
and type are ignored while the timestamp is stamped; an empty-string
email is rejected at the boundary with the store unchanged. -/
theorem claim10_amended_witness :
    update_ticket_route 1 (some "") (some "") (some "") 9 sampleDB =
      (.error .validationFailed, sampleDB) ∧
    (update_ticket_route 1 (some "") none (some "") 9 sampleDB).1.map
        Ticket.attendee_name = .ok "Ada" ∧
    (update_ticket_route 1 (some "") none (some "") 9 sampleDB).1.map
        Ticket.ticket_type = .ok "VIP" ∧
    (update_ticket_route 1 (some "") none (some "") 9 sampleDB).1.map
        Ticket.updated_at = .ok 9 := by
  obtain ⟨h1, h2⟩ := claim10_amended_empty_ignored_email_rejected 1
    (some "") none (some "") 9 sampleDB sampleTicket sampleEvent rfl rfl
  obtain ⟨t', db', heq, hname, htype, hupd, himg, hmem⟩ := h2 rfl
  refine ⟨h1, ?_⟩
  rw [heq]
  dsimp only [Except.map]
  rw [hname rfl, htype rfl, hupd]
  exact ⟨rfl, rfl, rfl⟩

end Ticket9ja

namespace Ticket9ja

/-! ### Claim C6: batch creation -/

/-- The creation loop with `count` units left at index `i`: when the
upcoming identifiers are fresh for the current store and pairwise
distinct, every insertion passes the unique-index guard; the loop
returns exactly the new rows, their identifiers are
`idGen i, …, idGen (i+count-1)` in order, and the events table is never
written. -/
theorem createTicketsLoop_ok (event : Event) (data : TicketCreate)
    (idGen : Nat → String) (now : Nat) :
    ∀ (count i : Nat) (db : DB),
      (∀ j, i ≤ j → j < i + count → ∀ t ∈ db.tickets, t.ticket_id ≠ idGen j) →
      (∀ j k, i ≤ j → j < i + count → i ≤ k → k < i + count →
        idGen j = idGen k → j = k) →
      ∃ ts db',
        createTicketsLoop event data idGen now count i db = (.ok ts, db') ∧
        ts.map Ticket.ticket_id = (List.range' i count).map idGen ∧
        db'.events = db.events ∧
        db'.tickets = db.tickets ++ ts := by
  intro count
  induction count with
  | zero =>
    intro i db _ _
    exact ⟨[], db, rfl, rfl, rfl, by simp⟩
  | succ c ih =>
    intro i db hfresh hinj
    have htk2 : (addFile (ticketImagePath (idGen i))
        (addFile (qrPath (idGen i)) db)).tickets = db.tickets := by
      rw [(addFile_frame _ _).1, (addFile_frame _ _).1]
    have hev2 : (addFile (ticketImagePath (idGen i))
        (addFile (qrPath (idGen i)) db)).events = db.events := by
      rw [(addFile_frame _ _).2.1, (addFile_frame _ _).2.1]
    have hguard : ¬ ((addFile (ticketImagePath (idGen i))
        (addFile (qrPath (idGen i)) db)).tickets.any
          (fun u => u.ticket_id == idGen i) = true) := by
      rw [htk2, List.any_eq_true]
      rintro ⟨u, hu, hbeq⟩
      exact hfresh i (Nat.le_refl i) (by omega) u hu (by simpa using hbeq)
    have hone : ∃ tN db3,
        createOneTicket event data (idGen i) now db = (.ok tN, db3) ∧
        tN.ticket_id = idGen i ∧ db3.events = db.events ∧
        db3.tickets = db.tickets ++ [tN] := by
      unfold createOneTicket
      dsimp only
      rw [if_neg hguard]
      exact ⟨_, _, rfl, rfl, hev2, by rw [htk2]⟩
    obtain ⟨tN, db3, h1, htidN, hev3, htk3⟩ := hone
    have hfresh' : ∀ j, i + 1 ≤ j → j < (i + 1) + c →
        ∀ t ∈ db3.tickets, t.ticket_id ≠ idGen j := by
      intro j hj1 hj2 t htm
      rw [htk3] at htm
      rcases List.mem_append.mp htm with hold | hnew
      · exact hfresh j (by omega) (by omega) t hold
      · have : t = tN := by simpa using hnew
        subst this
        rw [htidN]
        intro hcontra
        have := hinj i j (Nat.le_refl i) (by omega) (by omega) (by omega) hcontra
        omega
    have hinj' : ∀ j k, i + 1 ≤ j → j < (i + 1) + c → i + 1 ≤ k →
        k < (i + 1) + c → idGen j = idGen k → j = k := by
      intro j k hj1 hj2 hk1 hk2 h
      exact hinj j k (by omega) (by omega) (by omega) (by omega) h
    obtain ⟨ts', db'', heq, hmap, hevents, htickets⟩ := ih (i + 1) db3 hfresh' hinj'
    refine ⟨tN :: ts', db'', ?_, ?_, ?_, ?_⟩
    · show createTicketsLoop event data idGen now (c + 1) i db = _
      unfold createTicketsLoop
      rw [h1]
      dsimp only
      rw [heq]
    · rw [List.range'_succ]
      simp only [List.map_cons]
      rw [htidN, hmap]
    · rw [hevents, hev3]
    · rw [htickets, htk3]
      simp

/-- The lock step is the identity when the event is already locked. -/
theorem lockEventIfUnlocked_locked (eid : Nat) (db : DB) (ev : Event)
    (he : findEvent db eid = some ev) (hl : ev.is_locked = true) :
    lockEventIfUnlocked eid db = db := by
  unfold lockEventIfUnlocked
  rw [he]
  dsimp only
  rw [if_pos hl]

/-- Claim C6: for every existing event and quantity k ≥ 1 whose k
generated identifiers are pairwise distinct and unused (the entropy
assumption the identifier generator provides), CreateBatch succeeds and
produces exactly k tickets with pairwise-distinct identifiers; the event
is locked exactly once, before any ticket is persisted — the final
events table equals the table right after the single lock step, which is
a no-op when the event was already locked — and the new rows are
appended to the untouched prior rows. -/
theorem claim6_batch_locks_once_k_distinct (eid : Nat) (data : TicketCreate)
    (idGen : Nat → String) (now : Nat) (db : DB) (ev : Event)
    (he : findEvent db eid = some ev)
    (hq : 1 ≤ data.quantity)
    (hinj : ∀ j k, j < data.quantity.toNat → k < data.quantity.toNat →
      idGen j = idGen k → j = k)
    (hfresh : ∀ j, j < data.quantity.toNat →
      ∀ t ∈ db.tickets, t.ticket_id ≠ idGen j) :
    ∃ ts db',
      create_tickets eid data idGen now db = (.ok ts, db') ∧
      ts.length = data.quantity.toNat ∧
      (ts.map Ticket.ticket_id).Nodup ∧
      db'.events = (lockEventIfUnlocked eid db).events ∧
      findEvent db' eid = some { ev with is_locked := true } ∧
      (ev.is_locked = true → db'.events = db.events) ∧
      db'.tickets = db.tickets ++ ts := by
  have hlock := lockEventIfUnlocked_frame eid db
  have hfresh1 : ∀ j, 0 ≤ j → j < 0 + data.quantity.toNat →
      ∀ t ∈ (lockEventIfUnlocked eid db).tickets, t.ticket_id ≠ idGen j := by
    intro j _ hj t htm
    rw [hlock.1] at htm
    exact hfresh j (by omega) t htm
  have hinj1 : ∀ j k, 0 ≤ j → j < 0 + data.quantity.toNat → 0 ≤ k →
      k < 0 + data.quantity.toNat → idGen j = idGen k → j = k := by
    intro j k _ hj _ hk h
    exact hinj j k (by omega) (by omega) h
  obtain ⟨ts, db', heq, hmap, hevents, htickets⟩ :=
    createTicketsLoop_ok { ev with is_locked := true } data idGen now
      data.quantity.toNat 0 (lockEventIfUnlocked eid db) hfresh1 hinj1
  have hloopeq : create_tickets eid data idGen now db =
      createTicketsLoop { ev with is_locked := true } data idGen now
        data.quantity.toNat 0 (lockEventIfUnlocked eid db) := by
    unfold create_tickets
    rw [he]
  refine ⟨ts, db', by rw [hloopeq, heq], ?_, ?_, hevents, ?_, ?_, ?_⟩
  · have := congrArg List.length hmap
    simpa using this
  · rw [hmap]
    refine List.Nodup.map_on ?_ (List.nodup_range' 0 data.quantity.toNat)
    intro x hx y hy hxy
    have hx' := List.mem_range'_1.mp hx
    have hy' := List.mem_range'_1.mp hy
    exact hinj x y (by omega) (by omega) hxy
  · have : findEvent db' eid = findEvent (lockEventIfUnlocked eid db) eid := by
      unfold findEvent
      rw [hevents]
    rw [this]
    exact findEvent_lockEventIfUnlocked eid db ev he
  · intro hl
    rw [hevents, lockEventIfUnlocked_locked eid db ev he hl]
  · rw [htickets, hlock.1]

/-- Witness for C6: a batch of one ticket on the sample store. -/
theorem claim6_witness :
    (create_tickets 1
        { attendee_name := "B", attendee_email := "b@x.com",
          ticket_type := "Regular", quantity := 1 }
        (fun _ => "TKT-NEW") 3 sampleDB).2.events =
      (lockEventIfUnlocked 1 sampleDB).events ∧
    findEvent (create_tickets 1
        { attendee_name := "B", attendee_email := "b@x.com",
          ticket_type := "Regular", quantity := 1 }
        (fun _ => "TKT-NEW") 3 sampleDB).2 1 =
      some { sampleEvent with is_locked := true } ∧
    (create_tickets 1
        { attendee_name := "B", attendee_email := "b@x.com",
          ticket_type := "Regular", quantity := 1 }
        (fun _ => "TKT-NEW") 3 sampleDB).2.tickets.length =
      sampleDB.tickets.length + 1 := by
  obtain ⟨ts, db', heq, hlen, hnodup, hevents, hfind, hnoop, htickets⟩ :=
    claim6_batch_locks_once_k_distinct 1
      { attendee_name := "B", attendee_email := "b@x.com",
        ticket_type := "Regular", quantity := 1 }
      (fun _ => "TKT-NEW") 3 sampleDB sampleEvent rfl (by norm_num)
      (by
        intro j k hj hk _
        simp at hj hk
        omega)
      (by
        intro j _ t htm
        have ht : t = sampleTicket := by simpa [sampleDB] using htm
        subst ht
        show sampleTicket.ticket_id ≠ "TKT-NEW"
        decide)
  rw [heq]
  exact ⟨hevents, hfind, by rw [htickets]; simp [hlen]⟩

end Ticket9ja
